import Mathlib

/-!
Shallow embedding of the analysis-plan validator and execution engine
(`src/schemas/plan_validator.py` and `src/executor/executor.py`) of the
DataSages repository, together with theorems settling the specification
claims about them.

Modelling conventions:
* Python dicts for plans are embedded as records.  The required-key check of
  `validate_plan` is rendered unrepresentable by the record type (a raw dict
  missing a key fails with `Missing key` before any behaviour relevant to the
  claims); `sort`, `visualization` and `user_intent` may be null and are
  `Option`-valued.  A falsy visualization (None or `{}`) is `none`.
* Machine floats are modelled as `Rat`; `std` aggregation produces a value
  `Cell.sqrtv q` denoting `Real.sqrt q` (comparisons on it go through the
  squares).  `inf`/`nan` float literals and underscore separators accepted by
  Python's `float` are not modelled; no claim involves them.
* In-place mutation of the plan by `validate_plan` is modelled by returning
  the normalized plan; raising an exception is modelled by `Except.error`
  carrying the message text (quotes that Python's repr would add around
  values inside messages are omitted).
-/

deriving instance DecidableEq for Except

namespace DataSages

/-- Column kind of a pandas column: `numeric` covers the numeric dtypes,
`object` covers text/categorical columns (`dtype == "object"`). -/
inductive DType where
  | numeric
  | object
deriving DecidableEq

/-- A cell of the table.  `na` is a missing value (NaN); `sqrtv q` denotes the
irrational float `√q` produced by the `std` aggregation. -/
inductive Cell where
  | str (s : String)
  | num (q : Rat)
  | sqrtv (q : Rat)
  | na
deriving DecidableEq

structure Header where
  name : String
  dtype : DType
deriving DecidableEq

/-- A pandas DataFrame: named, kinded columns and positionally aligned rows. -/
structure Table where
  headers : List Header
  rows : List (List Cell)
deriving DecidableEq

/-- A scalar element of a filter's list value.  Python ints and floats are
both `num`; `null` is Python `None`. -/
inductive SVal where
  | str (s : String)
  | num (q : Rat)
  | null
deriving DecidableEq

/-- A filter's `value` field: a scalar or (for `in`) a list of scalars
(nested list literals are not produced by the planner and are not
modelled). -/
inductive FVal where
  | str (s : String)
  | num (q : Rat)
  | vlist (vs : List SVal)
  | null
deriving DecidableEq

structure Filter where
  column : String
  operator : String
  value : FVal
deriving DecidableEq

structure Metric where
  column : String
  operation : String
deriving DecidableEq

/-- `sort` config; `sort_by` embeds the source key `by` (a Lean keyword). -/
structure SortCfg where
  sort_by : Option String
  order : Option String
deriving DecidableEq

/-- Value of `visualization.top_n`: an int or a string (e.g. the literal
`"null"` before normalization). -/
inductive TopVal where
  | int (n : Int)
  | str (s : String)
deriving DecidableEq

structure Viz where
  type : Option String
  x : Option String
  y : Option String
  color : Option String
  top_n : Option TopVal
deriving DecidableEq

/-- `user_intent` is an unvalidated passthrough; the executor reads only
`focus`. -/
structure UserIntent where
  focus : Option String
deriving DecidableEq

structure Plan where
  analysis_type : String
  filters : List Filter
  group_by : List String
  metrics : List Metric
  sort : Option SortCfg
  visualization : Option Viz
  user_intent : Option UserIntent
deriving DecidableEq

def ALLOWED_ANALYSIS_TYPES : List String :=
  ["comparison", "trend", "aggregation", "correlation", "distribution"]

def ALLOWED_OPERATORS : List String := ["==", "!=", ">", "<", ">=", "<=", "in"]

def ALLOWED_METRICS : List String :=
  ["sum", "mean", "count", "min", "max", "median", "std"]

def ALLOWED_VIZ_TYPES : List String := ["bar", "line", "scatter", "histogram"]

/-- Visualization keywords that must not appear in metrics. -/
def INVALID_METRIC_OPERATIONS : List String := ALLOWED_VIZ_TYPES

/-- `isinstance(value, list)` for a filter value. -/
def isListVal : FVal → Bool
  | .vlist _ => true
  | _ => false

/-- Filter checks of `validate_plan` (column existence, operator enum,
`in` needs a list), fail-fast in list order. -/
def checkFilters : List Filter → List String → Except String Unit
  | [], _ => .ok ()
  | f :: fs, cols =>
    if f.column ∉ cols then .error ("Invalid filter column: " ++ f.column)
    else if f.operator ∉ ALLOWED_OPERATORS then
      .error ("Invalid operator: " ++ f.operator)
    else if f.operator = "in" ∧ ¬ isListVal f.value then
      .error "Operator in requires a list value"
    else checkFilters fs cols

/-- Group-by columns must exist in the table's columns. -/
def checkGroupBy : List String → List String → Except String Unit
  | [], _ => .ok ()
  | c :: cs, cols =>
    if c ∉ cols then .error ("Invalid group_by column: " ++ c)
    else checkGroupBy cs cols

/-- Steps 1-4 of `validate_plan` on the unchanged plan fields. -/
def checkBasics (aty : String) (fs : List Filter) (gb : List String)
    (cols : List String) : Except String Unit :=
  if aty ∉ ALLOWED_ANALYSIS_TYPES then .error ("Invalid analysis_type: " ++ aty)
  else
    match checkFilters fs cols with
    | .error e => .error e
    | .ok _ => checkGroupBy gb cols

/-- Metrics cleaning: silently drop chart-type operations, reject any other
non-statistical operation, require the metric column to exist. -/
def cleanMetrics : List Metric → List String → Except String (List Metric)
  | [], _ => .ok []
  | m :: ms, cols =>
    if m.operation ∈ INVALID_METRIC_OPERATIONS then cleanMetrics ms cols
    else if m.operation ∉ ALLOWED_METRICS then
      .error ("Invalid metric operation " ++ m.operation ++
        ". Only statistical operations are allowed.")
    else if m.column ∉ cols then .error ("Invalid metric column: " ++ m.column)
    else
      match cleanMetrics ms cols with
      | .error e => .error e
      | .ok r => .ok (m :: r)

/-- Literal string nulls become an absent value. -/
def normNull (o : Option String) : Option String :=
  match o with
  | some s => if s = "null" ∨ s = "NULL" then none else some s
  | none => none

def normNullTop (o : Option TopVal) : Option TopVal :=
  match o with
  | some (.str s) => if s = "null" ∨ s = "NULL" then none else some (.str s)
  | some (.int n) => some (.int n)
  | none => none

/-- The string-null normalization loop over `x, y, color, top_n`. -/
def normViz (v : Viz) : Viz :=
  { type := v.type, x := normNull v.x, y := normNull v.y,
    color := normNull v.color, top_n := normNullTop v.top_n }

/-- `viz["type"]` must be a chart type (a missing key and a non-chart value
both abort validation). -/
def checkVizType (t : Option String) : Except String Unit :=
  match t with
  | some τ =>
    if τ ∈ ALLOWED_VIZ_TYPES then .ok ()
    else .error ("Invalid visualization type: " ++ τ)
  | none => .error "Invalid visualization type: None"

/-- Auto-repair of a metric name placed in the y-axis: append
`{operation := y, column := target}` with target the first group-by column,
else the first table column (an empty table raises IndexError). -/
def autoRepair (gb : List String) (ms : List Metric) (viz : Viz)
    (cols : List String) : Except String (List Metric × Viz) :=
  match viz.y with
  | some y0 =>
    if y0 ∈ ALLOWED_METRICS then
      match gb with
      | t :: _ => .ok (ms ++ [⟨t, y0⟩], { viz with y := some t })
      | [] =>
        match cols with
        | t :: _ => .ok (ms ++ [⟨t, y0⟩], { viz with y := some t })
        | [] => .error "IndexError: list index out of range"
    else .ok (ms, viz)
  | none => .ok (ms, viz)

/-- Histogram and correlation axis rules. -/
def checkTypeRules (aty : String) (t x y : Option String) :
    Except String Unit :=
  if t = some "histogram" ∧ y ≠ none then .error "Histogram must not have y-axis"
  else if t = some "histogram" ∧ x = none then
    .error "Histogram must have x-axis specified"
  else if aty = "correlation" ∧ t ≠ some "scatter" then
    .error "Correlation requires scatter plot"
  else if aty = "correlation" ∧ (x = none ∨ y = none) then
    .error "Correlation scatter plot must have both x and y axes"
  else .ok ()

/-- Non-null axes must be table columns. -/
def checkAxes (x y : Option String) (cols : List String) :
    Except String Unit :=
  match x with
  | some s =>
    if s ∉ cols then .error ("Invalid x-axis: " ++ s)
    else
      match y with
      | some s' =>
        if s' ∉ cols then .error ("Invalid y-axis: " ++ s') else .ok ()
      | none => .ok ()
  | none =>
    match y with
    | some s' => if s' ∉ cols then .error ("Invalid y-axis: " ++ s') else .ok ()
    | none => .ok ()

/-- `top_n`, if present, must be a positive integer. -/
def checkTopN (tn : Option TopVal) : Except String Unit :=
  match tn with
  | none => .ok ()
  | some (.int n) => if n ≤ 0 then .error "top_n must be a positive integer" else .ok ()
  | some (.str _) => .error "top_n must be a positive integer"

/-- The visualization phase of `validate_plan` (steps 9-13 on the already
null-normalized viz), returning the possibly repaired metrics and viz. -/
def vizPhase (aty : String) (gb : List String) (ms : List Metric) (viz1 : Viz)
    (cols : List String) : Except String (List Metric × Viz) :=
  match checkVizType viz1.type with
  | .error e => .error e
  | .ok _ =>
    match autoRepair gb ms viz1 cols with
    | .error e => .error e
    | .ok (ms2, viz2) =>
      match checkTypeRules aty viz2.type viz2.x viz2.y with
      | .error e => .error e
      | .ok _ =>
        match checkAxes viz2.x viz2.y cols with
        | .error e => .error e
        | .ok _ =>
          match checkTopN viz2.top_n with
          | .error e => .error e
          | .ok _ => .ok (ms2, viz2)

/-- `validate_plan(plan, df_columns)`: fail-fast validation returning the
normalized plan (the source mutates the plan in place and returns True). -/
def validatePlan (p : Plan) (cols : List String) : Except String Plan :=
  match checkBasics p.analysis_type p.filters p.group_by cols with
  | .error e => .error e
  | .ok _ =>
    match cleanMetrics p.metrics cols with
    | .error e => .error e
    | .ok ms =>
      if (p.analysis_type = "distribution" ∨ p.analysis_type = "correlation") ∧ ms ≠ [] then
        .error (p.analysis_type ++ " analysis must not contain metrics")
      else
        match p.visualization with
        | none => .ok { p with metrics := ms }
        | some viz =>
          match vizPhase p.analysis_type p.group_by ms (normViz viz) cols with
          | .error e => .error e
          | .ok (ms2, viz2) =>
            .ok { p with metrics := ms2, visualization := some viz2 }

/-! ## Executor (`src/executor/executor.py`) -/

/-- `str.strip()` / whitespace trimming (character-list based; the core
`String.trim` is equivalent but not kernel-reducible). -/
def strTrim (s : String) : String :=
  ⟨((s.data.dropWhile fun c => c.isWhitespace).reverse.dropWhile
      fun c => c.isWhitespace).reverse⟩

/-- `str.replace(ch, "")`: remove every occurrence of a character. -/
def removeChar (ch : Char) (s : String) : String :=
  ⟨s.data.filter (fun c => c ≠ ch)⟩

/-- `str.replace("'", '"')`: map single quotes to double quotes. -/
def mapQuote (s : String) : String :=
  ⟨s.data.map (fun c => if c = Char.ofNat 39 then '"' else c)⟩

def strStartsWithC (ch : Char) (s : String) : Bool :=
  match s.data with
  | c :: _ => c == ch
  | [] => false

def strEndsWithC (ch : Char) (s : String) : Bool :=
  match s.data.getLast? with
  | some c => c == ch
  | none => false

def strContainsC (ch : Char) (s : String) : Bool := s.data.contains ch

def splitChar (ch : Char) : List Char → List Char → List (List Char)
  | [], acc => [acc.reverse]
  | c :: cs, acc =>
    if c == ch then acc.reverse :: splitChar ch cs []
    else splitChar ch cs (c :: acc)

/-- `str.split(ch)` on a single-character separator. -/
def strSplitOnC (ch : Char) (s : String) : List String :=
  (splitChar ch s.data []).map (fun l => ⟨l⟩)

/-- Value of a digit string. -/
def digitsVal (cs : List Char) : Nat :=
  cs.foldl (fun a c => a * 10 + (c.toNat - 48)) 0

/-- Exponent suffix of a float literal (empty, or `e`/`E`, sign, digits). -/
def parseExpPart (m : Rat) (cs : List Char) : Option Rat :=
  match cs with
  | [] => some m
  | c :: rest =>
    if c = 'e' ∨ c = 'E' then
      let signed : Bool × List Char :=
        match rest with
        | '+' :: r => (false, r)
        | '-' :: r => (true, r)
        | r => (false, r)
      let ds := (signed.2).takeWhile Char.isDigit
      let rest3 := (signed.2).dropWhile Char.isDigit
      if ds.isEmpty || ! rest3.isEmpty then none
      else if signed.1 then some (m / (10 : Rat) ^ digitsVal ds)
      else some (m * (10 : Rat) ^ digitsVal ds)
    else none

/-- Unsigned mantissa (`digits`, `digits.digits`, `.digits`) with optional
exponent; fails on trailing garbage. -/
def parseMantissa (cs : List Char) : Option Rat :=
  let ip := cs.takeWhile Char.isDigit
  let rest := cs.dropWhile Char.isDigit
  match rest with
  | '.' :: rest2 =>
    let fp := rest2.takeWhile Char.isDigit
    let rest3 := rest2.dropWhile Char.isDigit
    if ip.isEmpty && fp.isEmpty then none
    else parseExpPart
      ((digitsVal ip : Rat) + (digitsVal fp : Rat) / (10 : Rat) ^ fp.length)
      rest3
  | _ => if ip.isEmpty then none else parseExpPart (digitsVal ip) rest

/-- Python `float(s)` / `pd.to_numeric` string parsing: surrounding
whitespace, optional sign, decimal mantissa, optional exponent.  (`inf`,
`nan` and underscore separators are not modelled.) -/
def floatParse (s : String) : Option Rat :=
  match (strTrim s).data with
  | '+' :: rest => parseMantissa rest
  | '-' :: rest => (parseMantissa rest).map (fun q => -q)
  | cs => parseMantissa cs

/-- Python `float(val)` on a filter value (`executor.py` line 42); raises on
anything that does not parse as a float. -/
def pyFloat : FVal → Except String Rat
  | .num q => .ok q
  | .str s =>
    match floatParse s with
    | some q => .ok q
    | none => .error ("could not convert string to float: " ++ s)
  | .vlist _ => .error "float() argument must be a string or a real number, not list"
  | .null => .error "float() argument must be a string or a real number, not NoneType"

/-- One item of a bracketed list literal (after quote replacement). -/
def parseListItem (s : String) : Option SVal :=
  let t := strTrim s
  if strStartsWithC '"' t && strEndsWithC '"' t && decide (2 ≤ t.length) then
    some (.str ((t.drop 1).dropRight 1))
  else if t = "null" then some .null
  else (floatParse t).map (fun q => SVal.num q)

/-- `json.loads` on a flat bracketed array of scalar literals (the only shape
the planner emits; nested arrays are not modelled and fail the parse, which
leaves the value unchanged, as the source's `except: pass` does). -/
def parseListLit (s : String) : Option (List SVal) :=
  let inner := strTrim ((s.drop 1).dropRight 1)
  if strContainsC '[' inner then none
  else if inner = "" then some []
  else (strSplitOnC ',' inner).mapM parseListItem

/-- Preprocessing of a filter value (`executor.py` lines 34-38): a string
that looks like a bracketed list is parsed (tolerating single quotes); parse
failure keeps the string. -/
def preVal (v : FVal) : FVal :=
  match v with
  | .str s =>
    if strStartsWithC '[' s && strEndsWithC ']' s then
      match parseListLit (mapQuote s) with
      | some l => .vlist l
      | none => .str s
    else .str s
  | v => v

/-- `_coerce_numeric` on one cell: stringify, strip all `%`, trim, parse;
failures become missing.  A numeric cell round-trips through its decimal
representation to itself. -/
def coerceCell : Cell → Cell
  | .num q => .num q
  | .sqrtv q => .sqrtv q
  | .na => .na
  | .str s =>
    match floatParse (strTrim (removeChar '%' s)) with
    | some q => .num q
    | none => .na

def colIdx (t : Table) (c : String) : Option Nat :=
  t.headers.findIdx? (fun h => h.name = c)

def colNames (t : Table) : List String := t.headers.map (fun h => h.name)

/-- `working_df[col] = _coerce_numeric(working_df[col])`: the column's cells
are replaced and its dtype becomes numeric (float64). -/
def coerceColumn (t : Table) (i : Nat) : Table :=
  { headers :=
      match t.headers.get? i with
      | some h => t.headers.set i ⟨h.name, .numeric⟩
      | none => t.headers,
    rows := t.rows.map (fun r => r.set i (coerceCell (r.getD i .na))) }

/-- Elementwise `==` of a cell against a scalar filter value (NaN and
mismatched kinds compare unequal, as in pandas). -/
def eqCellF : Cell → FVal → Bool
  | .num p, .num q => p == q
  | .sqrtv v, .num r => decide (0 ≤ r) && (v == r * r)
  | .str s, .str t => s == t
  | _, _ => false

/-- Membership test for `isin` (pandas matches None/NaN entries). -/
def eqCellS : Cell → SVal → Bool
  | .num p, .num q => p == q
  | .sqrtv v, .num r => decide (0 ≤ r) && (v == r * r)
  | .str s, .str t => s == t
  | .na, .null => true
  | _, _ => false

/-- Compare a (coerced) cell against the numeric filter value; `none` for
missing values, which every relational comparison excludes. -/
def qcmp (c : Cell) (q : Rat) : Option Ordering :=
  match c with
  | .num p => some (compare p q)
  | .sqrtv v =>
    if q < 0 then some .gt
    else if v == q * q then some .eq
    else if v < q * q then some .lt
    else some .gt
  | _ => none

def relCmp (op : String) (c : Cell) (q : Rat) : Bool :=
  match qcmp c q with
  | none => false
  | some o =>
    if op = ">" then o == .gt
    else if op = "<" then o == .lt
    else if op = ">=" then o == .gt || o == .eq
    else if op = "<=" then o == .lt || o == .eq
    else false

def filterRows (t : Table) (pred : List Cell → Bool) : Table :=
  { t with rows := t.rows.filter pred }

/-- One pass of the filter loop body of `execute_plan`.  Relational operators
first coerce the column in place, then convert the right-hand value with an
unguarded `float(...)`.  An operator matching no branch leaves the table
unchanged (the source if-chain has no else). -/
def applyFilter (t : Table) (f : Filter) : Except String Table :=
  let val := preVal f.value
  if f.operator = ">" ∨ f.operator = "<" ∨ f.operator = ">=" ∨ f.operator = "<=" then
    match colIdx t f.column with
    | none => .error ("KeyError: " ++ f.column)
    | some i =>
      let t2 := coerceColumn t i
      match pyFloat val with
      | .error e => .error e
      | .ok q => .ok (filterRows t2 (fun r => relCmp f.operator (r.getD i .na) q))
  else if f.operator = "==" then
    match colIdx t f.column with
    | none => .error ("KeyError: " ++ f.column)
    | some i => .ok (filterRows t (fun r => eqCellF (r.getD i .na) val))
  else if f.operator = "!=" then
    match colIdx t f.column with
    | none => .error ("KeyError: " ++ f.column)
    | some i => .ok (filterRows t (fun r => ! eqCellF (r.getD i .na) val))
  else if f.operator = "in" then
    match colIdx t f.column with
    | none => .error ("KeyError: " ++ f.column)
    | some i =>
      let vals :=
        match val with
        | .vlist l => l
        | .str s => [SVal.str s]
        | .num q => [SVal.num q]
        | .null => [SVal.null]
      .ok (filterRows t (fun r => vals.any (fun v => eqCellS (r.getD i .na) v)))
  else .ok t

/-- The sequential filter conjunction of `execute_plan`. -/
def processFilters (t : Table) : List Filter → Except String Table
  | [] => .ok t
  | f :: fs =>
    match applyFilter t f with
    | .error e => .error e
    | .ok t2 => processFilters t2 fs

def dedupAux {α : Type} [DecidableEq α] : List α → List α → List α
  | [], _ => []
  | x :: xs, seen => if x ∈ seen then dedupAux xs seen else x :: dedupAux xs (x :: seen)

/-- Duplicate removal keeping first occurrences (pandas `drop_duplicates`). -/
def dedupFirst {α : Type} [DecidableEq α] (l : List α) : List α := dedupAux l []

def colCells (t : Table) (i : Nat) : List Cell := t.rows.map (fun r => r.getD i .na)

def isNa : Cell → Bool
  | .na => true
  | _ => false

/-- pandas `nunique`: distinct non-missing values. -/
def nunique (cs : List Cell) : Nat := (dedupFirst (cs.filter (fun c => ! isNa c))).length

/-- The count-only aggregation case of `execute_plan`: distinct count for an
object-dtype column, plain row count otherwise, as a one-cell `count` table. -/
def countMode (t : Table) (m : Metric) : Except String Table :=
  match colIdx t m.column with
  | none => .error ("KeyError: " ++ m.column)
  | some i =>
    if (t.headers.getD i ⟨"", .object⟩).dtype ≠ .object then
      .ok { headers := [⟨"count", .numeric⟩], rows := [[.num (t.rows.length : Rat)]] }
    else
      .ok { headers := [⟨"count", .numeric⟩], rows := [[.num (nunique (colCells t i) : Rat)]] }

/-- Python dict insertion `agg_map[col] = op`: overwrite in place or append. -/
def insertReplace (l : List (String × String)) (k v : String) : List (String × String) :=
  if l.any (fun p => p.1 == k) then l.map (fun p => if p.1 == k then (k, v) else p)
  else l ++ [(k, v)]

/-- The aggregation-map construction of `execute_plan` (lines 91-101):
metrics whose column is a group-by key are skipped. -/
def buildAggMap (ms : List Metric) (gb : List String) : List (String × String) :=
  ms.foldl (fun acc m => if m.column ∈ gb then acc else insertReplace acc m.column m.operation) []

def mapIdx (t : Table) : List String → Except String (List Nat)
  | [] => .ok []
  | c :: cs =>
    match colIdx t c with
    | none => .error ("KeyError: " ++ c)
    | some i =>
      match mapIdx t cs with
      | .error e => .error e
      | .ok is => .ok (i :: is)

def cellsNums : List Cell → Option (List Rat)
  | [] => some []
  | .num q :: cs => (cellsNums cs).map (fun l => q :: l)
  | _ => none

def cellsStrs : List Cell → Option (List String)
  | [] => some []
  | .str s :: cs => (cellsStrs cs).map (fun l => s :: l)
  | _ => none

def ratSum (l : List Rat) : Rat := l.foldl (fun a b => a + b) 0

/-- Total order used for sorting and min/max; `sqrtv` compares through the
squares.  pandas raises on cross-kind comparisons, which this embedding
totalizes (numbers before strings); no claim exercises that case. -/
def cellLeB : Cell → Cell → Bool
  | .na, _ => true
  | _, .na => false
  | .num p, .num q => decide (p ≤ q)
  | .num p, .sqrtv v => decide (p ≤ 0) || decide (p * p ≤ v)
  | .sqrtv u, .num q => decide (0 ≤ q) && decide (u ≤ q * q)
  | .sqrtv u, .sqrtv v => decide (u ≤ v)
  | .str s, .str t => decide (s ≤ t)
  | .num _, .str _ => true
  | .sqrtv _, .str _ => true
  | .str _, .num _ => false
  | .str _, .sqrtv _ => false

def insertSorted {α : Type} (le : α → α → Bool) (x : α) : List α → List α
  | [] => [x]
  | y :: ys => if le x y then x :: y :: ys else y :: insertSorted le x ys

def insertionSort {α : Type} (le : α → α → Bool) : List α → List α
  | [] => []
  | x :: xs => insertSorted le x (insertionSort le xs)

/-- Lexicographic order on group keys (pandas sorts the groups). -/
def keyLexLe : List Cell → List Cell → Bool
  | [], _ => true
  | _ :: _, [] => false
  | a :: ka, b :: kb => if a == b then keyLexLe ka kb else cellLeB a b

/-- One aggregation (`skipna`, as pandas does); type errors that pandas
raises on non-numeric input are `Except.error`. -/
def aggOp (op : String) (cells : List Cell) : Except String Cell :=
  let nn := cells.filter (fun c => ! isNa c)
  if op = "count" then .ok (.num (nn.length : Rat))
  else if op = "sum" then
    match cellsNums nn with
    | some qs => .ok (.num (ratSum qs))
    | none =>
      match cellsStrs nn with
      | some ss => .ok (.str (String.join ss))
      | none => .error "TypeError: unsupported operand types for +"
  else if op = "mean" then
    match cellsNums nn with
    | some [] => .ok .na
    | some qs => .ok (.num (ratSum qs / (qs.length : Rat)))
    | none => .error "TypeError: could not convert to numeric"
  else if op = "min" then
    match nn with
    | [] => .ok .na
    | c :: cs =>
      if (cellsNums nn).isSome || (cellsStrs nn).isSome then
        .ok (cs.foldl (fun a b => if cellLeB a b then a else b) c)
      else .error "TypeError: mixed types are not orderable"
  else if op = "max" then
    match nn with
    | [] => .ok .na
    | c :: cs =>
      if (cellsNums nn).isSome || (cellsStrs nn).isSome then
        .ok (cs.foldl (fun a b => if cellLeB b a then a else b) c)
      else .error "TypeError: mixed types are not orderable"
  else if op = "median" then
    match cellsNums nn with
    | some [] => .ok .na
    | some qs =>
      let sorted := insertionSort (fun a b => decide (a ≤ b)) qs
      let n := sorted.length
      if n % 2 = 1 then .ok (.num (sorted.getD (n / 2) 0))
      else .ok (.num ((sorted.getD (n / 2 - 1) 0 + sorted.getD (n / 2) 0) / 2))
    | none => .error "TypeError: could not convert to numeric"
  else if op = "std" then
    match cellsNums nn with
    | some qs =>
      if qs.length < 2 then .ok .na
      else
        let μ := ratSum qs / (qs.length : Rat)
        .ok (.sqrtv (ratSum (qs.map (fun x => (x - μ) * (x - μ))) / ((qs.length : Rat) - 1)))
    | none => .error "TypeError: could not convert to numeric"
  else .error ("AttributeError: " ++ op ++ " is not a valid function")

/-- Result dtype of an aggregated column. -/
def aggDtype (op : String) (d : DType) : DType :=
  if op = "count" ∨ op = "mean" ∨ op = "median" ∨ op = "std" then .numeric else d

def groupRows (gidx : List Nat) (rows : List (List Cell)) (key : List Cell) :
    List (List Cell) :=
  rows.filter (fun r => gidx.map (fun i => r.getD i .na) == key)

def aggRow (rowsg : List (List Cell)) :
    List ((String × String) × Nat) → Except String (List Cell)
  | [] => .ok []
  | (co, i) :: rest =>
    match aggOp co.2 (rowsg.map (fun r => r.getD i .na)) with
    | .error e => .error e
    | .ok c =>
      match aggRow rowsg rest with
      | .error e => .error e
      | .ok cs => .ok (c :: cs)

def buildGroups (rows : List (List Cell)) (gidx : List Nat)
    (pairs : List ((String × String) × Nat)) :
    List (List Cell) → Except String (List (List Cell))
  | [] => .ok []
  | k :: ks =>
    match aggRow (groupRows gidx rows k) pairs with
    | .error e => .error e
    | .ok cs =>
      match buildGroups rows gidx pairs ks with
      | .error e => .error e
      | .ok rs => .ok ((k ++ cs) :: rs)

/-- `groupby(group_by, as_index=False).agg(agg_map)`: rows with a missing
group key are dropped, groups are sorted by key, group columns come first. -/
def groupAgg (t : Table) (gb : List String) (amap : List (String × String)) :
    Except String Table :=
  match mapIdx t gb with
  | .error e => .error e
  | .ok gidx =>
    match mapIdx t (amap.map (fun p => p.1)) with
    | .error e => .error e
    | .ok aidx =>
      let rows2 := t.rows.filter (fun r => ! gidx.any (fun i => isNa (r.getD i .na)))
      let keys := insertionSort keyLexLe
        (dedupFirst (rows2.map (fun r => gidx.map (fun i => r.getD i .na))))
      let pairs := amap.zip aidx
      match buildGroups rows2 gidx pairs keys with
      | .error e => .error e
      | .ok newRows =>
        .ok { headers :=
                gidx.map (fun i => t.headers.getD i ⟨"", .object⟩) ++
                pairs.map (fun pi =>
                  ⟨pi.1.1, aggDtype pi.1.2 (t.headers.getD pi.2 ⟨"", .object⟩).dtype⟩),
              rows := newRows }

/-- `working_df[group_by].drop_duplicates()`: distinct group-key combinations
in first-occurrence order (missing keys are kept here, unlike `groupby`). -/
def selectDropDup (t : Table) (gb : List String) : Except String Table :=
  match mapIdx t gb with
  | .error e => .error e
  | .ok gidx =>
    .ok { headers := gidx.map (fun i => t.headers.getD i ⟨"", .object⟩),
          rows := dedupFirst (t.rows.map (fun r => gidx.map (fun i => r.getD i .na))) }

/-- The aggregation step of `execute_plan` (lines 66-113): count-only mode,
grouped mode (distinct keys when the aggregation map is empty), or
pass-through. -/
def aggStage (t : Table) (ms : List Metric) (gb : List String) :
    Except String Table :=
  match gb with
  | [] =>
    match ms with
    | [m] => if m.operation = "count" then countMode t m else .ok t
    | _ => .ok t
  | g :: gs =>
    let amap := buildAggMap ms (g :: gs)
    if amap.isEmpty then selectDropDup t (g :: gs) else groupAgg t (g :: gs) amap

/-- `sort_values`: missing keys last for either direction; a stable sort is
used (pandas's default quicksort is not stable; no claim depends on tie
order). -/
def sortRows (rows : List (List Cell)) (i : Nat) (asc : Bool) : List (List Cell) :=
  let key := fun (r : List Cell) => r.getD i Cell.na
  (insertionSort
      (fun r1 r2 => if asc then cellLeB (key r1) (key r2) else cellLeB (key r2) (key r1))
      (rows.filter (fun r => ! isNa (key r)))) ++
    rows.filter (fun r => isNa (key r))

/-- Truthiness of an optional string (`None` and `""` are falsy). -/
def truthyS : Option String → Bool
  | none => false
  | some s => ! (s == "")

/-- The sorting step of `execute_plan` (lines 118-125): silently skipped when
`sort.by` is falsy or not a result column. -/
def sortStage (t : Table) (s : Option SortCfg) : Table :=
  match s with
  | none => t
  | some cfg =>
    if truthyS cfg.sort_by then
      match cfg.sort_by with
      | some b =>
        match colIdx t b with
        | some i => { t with rows := sortRows t.rows i ((cfg.order.getD "asc") == "asc") }
        | none => t
      | none => t
    else t

def truthyTop : Option TopVal → Bool
  | none => false
  | some (.int n) => ! (n == 0)
  | some (.str s) => ! (s == "")

/-- Python `int(s)` on a string. -/
def pyInt (s : String) : Option Int :=
  match (strTrim s).data with
  | '-' :: ds =>
    if ! ds.isEmpty && ds.all Char.isDigit then some (-(digitsVal ds : Int)) else none
  | '+' :: ds =>
    if ! ds.isEmpty && ds.all Char.isDigit then some ((digitsVal ds : Int)) else none
  | ds =>
    if ! ds.isEmpty && ds.all Char.isDigit then some ((digitsVal ds : Int)) else none

/-- `DataFrame.head(n)`: first `n` rows, or all but the last `|n|` rows for
negative `n`. -/
def tableHead (t : Table) (n : Int) : Table :=
  if 0 ≤ n then { t with rows := t.rows.take n.toNat }
  else { t with rows := t.rows.take (t.rows.length - n.natAbs) }

def focusOf (ui : Option UserIntent) : Option String :=
  match ui with
  | some u => u.focus
  | none => none

def topnOf (viz : Option Viz) : Option TopVal :=
  match viz with
  | some v => v.top_n
  | none => none

/-- The top-n step of `execute_plan` (lines 130-135): truncation happens only
when `user_intent.focus != "both"` and `top_n` is truthy. -/
def topnStage (t : Table) (viz : Option Viz) (ui : Option UserIntent) :
    Except String Table :=
  if focusOf ui ≠ some "both" ∧ truthyTop (topnOf viz) then
    match topnOf viz with
    | some (.int n) => .ok (tableHead t n)
    | some (.str s) =>
      match pyInt s with
      | some n => .ok (tableHead t n)
      | none => .error ("invalid literal for int() with base 10: " ++ s)
    | none => .ok t
  else .ok t

/-- First metric whose column is among the result's columns. -/
def firstMetricCol (ms : List Metric) (res : Table) : Option String :=
  (ms.find? (fun m => (colNames res).contains m.column)).map (fun m => m.column)

/-- The y-resolution loop (`executor.py` lines 147-151): only a `None` y is
resolved, and only when metrics is non-empty; an unresolved y stays `None`. -/
def resolveY (y : Option String) (ms : List Metric) (res : Table) : Option String :=
  match y with
  | some s => some s
  | none => if ms.isEmpty then none else firstMetricCol ms res

/-- Chart descriptor (`px.bar` etc. receive the result, axes, color). -/
structure Fig where
  ftype : String
  x : String
  y : Option String
  color : Option String
deriving DecidableEq

/-- The chart-building if-chain: bar/line/scatter need truthy x and y,
histogram needs truthy x only; otherwise no figure. -/
def buildFig (τ x y color : Option String) : Option Fig :=
  if τ == some "bar" && truthyS x && truthyS y then some ⟨"bar", x.getD "", y, color⟩
  else if τ == some "line" && truthyS x && truthyS y then some ⟨"line", x.getD "", y, color⟩
  else if τ == some "scatter" && truthyS x && truthyS y then some ⟨"scatter", x.getD "", y, color⟩
  else if τ == some "histogram" && truthyS x then some ⟨"histogram", x.getD "", none, color⟩
  else none

/-- Python list display of the available columns (element quoting omitted). -/
def pyStrList (l : List String) : String := "[" ++ String.intercalate ", " l ++ "]"

def yAxisErr (y : String) (cols : List String) : String :=
  "Invalid y-axis " ++ y ++ ". Available columns: " ++ pyStrList cols

/-- The visualization step of `execute_plan` (lines 140-166): raises exactly
when the resolved y is truthy and absent from the result columns. -/
def vizStage (res : Table) (viz : Option Viz) (ms : List Metric) :
    Except String (Option Fig) :=
  match viz with
  | none => .ok none
  | some v =>
    if truthyS v.type then
      match resolveY v.y ms res with
      | some ys =>
        if ys ≠ "" ∧ ys ∉ colNames res then .error (yAxisErr ys (colNames res))
        else .ok (buildFig v.type v.x (some ys) v.color)
      | none => .ok (buildFig v.type v.x none v.color)
    else .ok none

/-- `execute_plan(df, plan)`: filters, aggregation, sorting, top-n,
visualization; returns (result table, figure or none, filtered table). -/
def executePlan (df : Table) (p : Plan) :
    Except String (Table × Option Fig × Table) :=
  match processFilters df p.filters with
  | .error e => .error e
  | .ok filtered =>
    match aggStage filtered p.metrics p.group_by with
    | .error e => .error e
    | .ok r =>
      match topnStage (sortStage r p.sort) p.visualization p.user_intent with
      | .error e => .error e
      | .ok t =>
        match vizStage t p.visualization p.metrics with
        | .error e => .error e
        | .ok fig => .ok (t, fig, filtered)

/-- The result table of `execute_plan` just after the sorting step. -/
def resultThroughSort (df : Table) (p : Plan) : Except String Table :=
  match processFilters df p.filters with
  | .error e => .error e
  | .ok filtered =>
    match aggStage filtered p.metrics p.group_by with
    | .error e => .error e
    | .ok r => .ok (sortStage r p.sort)

/-- The result table of `execute_plan` just after the top-n step. -/
def resultThroughTopN (df : Table) (p : Plan) : Except String Table :=
  match resultThroughSort df p with
  | .error e => .error e
  | .ok rt => topnStage rt p.visualization p.user_intent

/-! ## Concrete instances used by the claim theorems -/

def c1Viz : Viz := ⟨some "bar", some "region", some "mean", none, none⟩

def c1Plan : Plan := ⟨"aggregation", [], ["region"], [], none, some c1Viz, none⟩

def c1Norm : Plan :=
  ⟨"aggregation", [], ["region"], [⟨"region", "mean"⟩], none,
    some ⟨some "bar", some "region", some "region", none, none⟩, none⟩

def c2Viz : Viz := ⟨some "bar", none, some "mean", none, none⟩

def c2Plan : Plan := ⟨"distribution", [], [], [], none, some c2Viz, none⟩

def c2Norm : Plan :=
  ⟨"distribution", [], [], [⟨"region", "mean"⟩], none,
    some ⟨some "bar", none, some "region", none, none⟩, none⟩

def c3Viz : Viz := ⟨some "bar", none, some "mean", none, none⟩

def c3Plan : Plan := ⟨"aggregation", [], [], [], none, some c3Viz, none⟩

def c3Norm : Plan :=
  ⟨"aggregation", [], [], [⟨"mean", "mean"⟩], none, some c3Viz, none⟩

def c3Norm2 : Plan :=
  ⟨"aggregation", [], [], [⟨"mean", "mean"⟩, ⟨"mean", "mean"⟩], none,
    some c3Viz, none⟩

def c3wPlan : Plan := ⟨"comparison", [], [], [], none, none, none⟩

def c4Df : Table := ⟨[⟨"a", .numeric⟩], [[.num 1]]⟩

def c4Ms : List Metric := [⟨"z", "sum"⟩]

def c4Viz : Viz := ⟨some "bar", some "a", none, none, none⟩

def c4Plan : Plan := ⟨"aggregation", [], [], c4Ms, none, some c4Viz, none⟩

def c5Df : Table := ⟨[⟨"a", .numeric⟩], [[.num 1]]⟩

def c5Viz : Viz := ⟨some "bar", some "a", some "b", none, none⟩

def c5Plan : Plan := ⟨"aggregation", [], [], [], none, some c5Viz, none⟩

def c5cDf : Table := ⟨[⟨"q", .numeric⟩], [[.num 2]]⟩

def c5cPlan : Plan :=
  ⟨"trend", [], [], [], none, some ⟨some "line", some "q", some "zz", none, none⟩, none⟩

def c7Df : Table := ⟨[⟨"a", .numeric⟩], [[.num 3], [.num 1], [.num 2]]⟩

def c7Viz : Viz := ⟨some "bar", some "a", some "a", none, some (.int 2)⟩

def c7Plan : Plan := ⟨"comparison", [], [], [], none, some c7Viz, none⟩

def c8Tbl : Table := ⟨[⟨"city", .object⟩], [[.str "x"], [.str "y"], [.str "x"]]⟩

def c9Tbl : Table := ⟨[⟨"discount", .object⟩], [[.str "15%"], [.str "5%"]]⟩

def c9Filter : Filter := ⟨"discount", ">", .str "10%"⟩

def c9GoodFilter : Filter := ⟨"discount", ">", .str "10"⟩

def c9Plan : Plan := ⟨"aggregation", [c9Filter], [], [], none, none, none⟩

def c10Tbl : Table := ⟨[⟨"discount", .object⟩], [[.str "15%"], [.str "5%"]]⟩

def c10Filter : Filter := ⟨"discount", ">", .str "abc"⟩

def c10Plan : Plan := ⟨"aggregation", [c10Filter], [], [], none, none, none⟩

/-! ## Helper lemmas -/

/-- Eliminate the `match e with | .error e => .error e | .ok a => g a` pattern
used throughout the embedding. -/
theorem mem_allowed_not_invalid {s : String} (h : s ∈ ALLOWED_METRICS) :
    s ∉ INVALID_METRIC_OPERATIONS := by
  simp only [ALLOWED_METRICS, List.mem_cons, List.not_mem_nil, or_false] at h
  rcases h with rfl | rfl | rfl | rfl | rfl | rfl | rfl <;> decide

theorem cleanMetrics_ok_inv {cols : List String} :
    ∀ {ms r : List Metric}, cleanMetrics ms cols = .ok r →
      (∀ m ∈ ms, m.operation ∈ INVALID_METRIC_OPERATIONS ∨
        (m.operation ∈ ALLOWED_METRICS ∧ m.column ∈ cols)) ∧
      r = ms.filter (fun m => decide (m.operation ∉ INVALID_METRIC_OPERATIONS)) := by
  intro ms
  induction ms with
  | nil =>
    intro r h
    simp only [cleanMetrics, Except.ok.injEq] at h
    simp [← h]
  | cons m ms ih =>
    intro r h
    simp only [cleanMetrics] at h
    split_ifs at h with h1 h2 h3
    · obtain ⟨ha, hr⟩ := ih h
      refine ⟨?_, ?_⟩
      · intro m' hm'
        rcases List.mem_cons.mp hm' with rfl | hm'
        · exact Or.inl h1
        · exact ha m' hm'
      · simp [List.filter_cons, h1, hr]
    · rcases hc : cleanMetrics ms cols with e | r'
      · rw [hc] at h
        exact absurd h (by simp)
      · rw [hc] at h
        simp only [Except.ok.injEq] at h
        obtain ⟨ha, hflt⟩ := ih hc
        refine ⟨?_, ?_⟩
        · intro m' hm'
          rcases List.mem_cons.mp hm' with rfl | hm'
          · exact Or.inr ⟨h2, h3⟩
          · exact ha m' hm'
        · rw [← h, hflt]
          simp [List.filter_cons, h1]

theorem cleanMetrics_self {cols : List String} :
    ∀ {ms : List Metric},
      (∀ m ∈ ms, m.operation ∈ ALLOWED_METRICS ∧ m.column ∈ cols) →
      cleanMetrics ms cols = .ok ms := by
  intro ms
  induction ms with
  | nil => intro _; rfl
  | cons m ms ih =>
    intro h
    have hm := h m (List.mem_cons_self m ms)
    have hrest : cleanMetrics ms cols = .ok ms :=
      ih (fun m' hm' => h m' (List.mem_cons_of_mem m hm'))
    simp only [cleanMetrics]
    rw [if_neg (mem_allowed_not_invalid hm.1), if_neg (not_not.mpr hm.1),
      if_neg (not_not.mpr hm.2), hrest]

theorem checkGroupBy_sub {cols : List String} :
    ∀ {gb : List String}, checkGroupBy gb cols = .ok () → ∀ c ∈ gb, c ∈ cols := by
  intro gb
  induction gb with
  | nil => intro _ c hc; cases hc
  | cons g gs ih =>
    intro h c hc
    simp only [checkGroupBy] at h
    split_ifs at h with h1
    rcases List.mem_cons.mp hc with rfl | hc
    · exact h1
    · exact ih h c hc

theorem checkBasics_parts {aty : String} {fs : List Filter} {gb cols : List String}
    {u : Unit} (h : checkBasics aty fs gb cols = .ok u) :
    aty ∈ ALLOWED_ANALYSIS_TYPES ∧ checkGroupBy gb cols = .ok () := by
  simp only [checkBasics] at h
  split_ifs at h with h1
  rcases hf : checkFilters fs cols with e | v
  · rw [hf] at h
    exact absurd h (by simp)
  · rw [hf] at h
    cases u
    exact ⟨h1, h⟩

theorem head?_mem {A : Type} {l : List A} {a : A} (h : l.head? = some a) :
    a ∈ l := by
  cases l with
  | nil => cases h
  | cons x xs =>
    simp only [List.head?_cons, Option.some.injEq] at h
    rw [← h]
    exact List.mem_cons_self x xs

theorem normNull_normNull (o : Option String) :
    normNull (normNull o) = normNull o := by
  rcases o with _ | s
  · rfl
  · show normNull (if s = "null" ∨ s = "NULL" then none else some s) =
      (if s = "null" ∨ s = "NULL" then none else some s)
    by_cases h : s = "null" ∨ s = "NULL"
    · rw [if_pos h]; rfl
    · rw [if_neg h]
      show (if s = "null" ∨ s = "NULL" then none else some s) = some s
      rw [if_neg h]

theorem normNullTop_normNullTop (o : Option TopVal) :
    normNullTop (normNullTop o) = normNullTop o := by
  rcases o with _ | tv
  · rfl
  · rcases tv with n | s
    · rfl
    · show normNullTop (if s = "null" ∨ s = "NULL" then none else some (.str s)) =
        (if s = "null" ∨ s = "NULL" then none else some (.str s))
      by_cases h : s = "null" ∨ s = "NULL"
      · rw [if_pos h]; rfl
      · rw [if_neg h]
        show (if s = "null" ∨ s = "NULL" then none else some (TopVal.str s)) =
          some (TopVal.str s)
        rw [if_neg h]

theorem normNull_eq_self {o : Option String}
    (h : ∀ s, o = some s → s ≠ "null" ∧ s ≠ "NULL") : normNull o = o := by
  rcases o with _ | s
  · rfl
  · show (if s = "null" ∨ s = "NULL" then none else some s) = some s
    rw [if_neg]
    rintro (rfl | rfl)
    · exact (h _ rfl).1 rfl
    · exact (h _ rfl).2 rfl

theorem checkTopN_pos {n : Int} (h : checkTopN (some (.int n)) = .ok ()) :
    0 < n := by
  by_cases h1 : n ≤ 0
  · simp [checkTopN, h1] at h
  · omega

theorem insertReplace_key {l : List (String × String)} {k v : String} :
    ∀ pr ∈ insertReplace l k v, pr.1 = k ∨ pr ∈ l := by
  intro pr hin
  unfold insertReplace at hin
  split_ifs at hin with h1
  · obtain ⟨q, hq, he⟩ := List.mem_map.mp hin
    by_cases hqk : (q.1 == k) = true
    · rw [if_pos hqk] at he
      left; rw [← he]
    · rw [if_neg hqk] at he
      right; rw [← he]; exact hq
  · rcases List.mem_append.mp hin with h | h
    · right; exact h
    · left
      rcases List.mem_cons.mp h with rfl | h
      · rfl
      · cases h

theorem buildAggMap_foldl_inv {gb : List String} :
    ∀ (ms : List Metric) (acc : List (String × String)),
      (∀ pr ∈ acc, pr.1 ∉ gb) →
      ∀ pr ∈ ms.foldl (fun acc m =>
        if m.column ∈ gb then acc else insertReplace acc m.column m.operation) acc,
        pr.1 ∉ gb := by
  intro ms
  induction ms with
  | nil => intro acc hacc pr hpr; exact hacc pr hpr
  | cons m ms ih =>
    intro acc hacc pr hpr
    rw [List.foldl_cons] at hpr
    refine ih _ ?_ pr hpr
    intro pr' hpr'
    by_cases hmg : m.column ∈ gb
    · rw [if_pos hmg] at hpr'
      exact hacc pr' hpr'
    · rw [if_neg hmg] at hpr'
      rcases insertReplace_key pr' hpr' with h | h
      · rw [h]; exact hmg
      · exact hacc pr' h

theorem processFilters_append (gs : List Filter) :
    ∀ (fs : List Filter) (t : Table),
      processFilters t (fs ++ gs) =
        match processFilters t fs with
        | Except.error e => Except.error e
        | Except.ok t2 => processFilters t2 gs := by
  intro fs
  induction fs with
  | nil => intro t; rfl
  | cons f fs ih =>
    intro t
    simp only [List.cons_append, processFilters]
    rcases hc : applyFilter t f with e | t2
    · rfl
    · exact ih t2

theorem autoRepair_ok_inv {gb : List String} {ms : List Metric} {viz : Viz}
    {cols : List String} {ms2 : List Metric} {viz2 : Viz}
    (h : autoRepair gb ms viz cols = .ok (ms2, viz2)) :
    (ms2 = ms ∧ viz2 = viz ∧ ∀ y0, viz.y = some y0 → y0 ∉ ALLOWED_METRICS) ∨
    (∃ y0 t, viz.y = some y0 ∧ y0 ∈ ALLOWED_METRICS ∧
      ms2 = ms ++ [⟨t, y0⟩] ∧ viz2 = { viz with y := some t } ∧
      (gb.head? = some t ∨ (gb = [] ∧ cols.head? = some t))) := by
  rcases hy : viz.y with _ | y0
  · simp only [autoRepair, hy] at h
    simp only [Except.ok.injEq, Prod.mk.injEq] at h
    refine Or.inl ⟨h.1.symm, h.2.symm, fun y0' hy0' => ?_⟩
    cases hy0'
  · simp only [autoRepair, hy] at h
    by_cases hA : y0 ∈ ALLOWED_METRICS
    · rw [if_pos hA] at h
      rcases gb with _ | ⟨t, tl⟩
      · rcases cols with _ | ⟨c, cl⟩
        · dsimp only at h
          exact absurd h (by simp)
        · dsimp only at h
          simp only [Except.ok.injEq, Prod.mk.injEq] at h
          exact Or.inr ⟨y0, c, rfl, hA, h.1.symm, h.2.symm, Or.inr ⟨rfl, rfl⟩⟩
      · dsimp only at h
        simp only [Except.ok.injEq, Prod.mk.injEq] at h
        exact Or.inr ⟨y0, t, rfl, hA, h.1.symm, h.2.symm, Or.inl rfl⟩
    · rw [if_neg hA] at h
      simp only [Except.ok.injEq, Prod.mk.injEq] at h
      refine Or.inl ⟨h.1.symm, h.2.symm, fun y0' hy0' => ?_⟩
      cases hy0'
      exact hA

theorem vizPhase_ok_inv {aty : String} {gb : List String} {ms : List Metric}
    {viz1 : Viz} {cols : List String} {ms2 : List Metric} {viz2 : Viz}
    (h : vizPhase aty gb ms viz1 cols = .ok (ms2, viz2)) :
    checkVizType viz1.type = .ok () ∧
    autoRepair gb ms viz1 cols = .ok (ms2, viz2) ∧
    checkTypeRules aty viz2.type viz2.x viz2.y = .ok () ∧
    checkAxes viz2.x viz2.y cols = .ok () ∧
    checkTopN viz2.top_n = .ok () := by
  unfold vizPhase at h
  split at h
  · exact absurd h (by simp)
  next u1 heq1 =>
    split at h
    · exact absurd h (by simp)
    next ms2' viz2' heq2 =>
      split at h
      · exact absurd h (by simp)
      next u3 heq3 =>
        split at h
        · exact absurd h (by simp)
        next u4 heq4 =>
          split at h
          · exact absurd h (by simp)
          next u5 heq5 =>
            simp only [Except.ok.injEq, Prod.mk.injEq] at h
            obtain ⟨rfl, rfl⟩ := h
            cases u1
            cases u3
            cases u4
            cases u5
            exact ⟨heq1, heq2, heq3, heq4, heq5⟩

theorem validatePlan_ok_inv {p : Plan} {cols : List String} {p' : Plan}
    (h : validatePlan p cols = .ok p') :
    ∃ ms, checkBasics p.analysis_type p.filters p.group_by cols = .ok () ∧
      cleanMetrics p.metrics cols = .ok ms ∧
      ¬ ((p.analysis_type = "distribution" ∨ p.analysis_type = "correlation") ∧
        ms ≠ []) ∧
      ((p.visualization = none ∧ p' = { p with metrics := ms }) ∨
       (∃ viz ms2 viz2, p.visualization = some viz ∧
         vizPhase p.analysis_type p.group_by ms (normViz viz) cols = .ok (ms2, viz2) ∧
         p' = { p with metrics := ms2, visualization := some viz2 })) := by
  unfold validatePlan at h
  split at h
  · exact absurd h (by simp)
  next u0 heq0 =>
    split at h
    · exact absurd h (by simp)
    next ms heq1 =>
      by_cases hcond : (p.analysis_type = "distribution" ∨
          p.analysis_type = "correlation") ∧ ms ≠ []
      · rw [if_pos hcond] at h
        exact absurd h (by simp)
      · rw [if_neg hcond] at h
        cases u0
        split at h
        next heq2 =>
          simp only [Except.ok.injEq] at h
          exact ⟨ms, heq0, heq1, hcond, Or.inl ⟨heq2, h.symm⟩⟩
        next viz heq2 =>
          split at h
          · exact absurd h (by simp)
          next ms2 viz2 heq3 =>
            simp only [Except.ok.injEq] at h
            exact ⟨ms, heq0, heq1, hcond, Or.inr ⟨viz, ms2, viz2, heq2, heq3, h.symm⟩⟩

theorem validatePlan_fields {p : Plan} {cols : List String} {p' : Plan}
    (h : validatePlan p cols = .ok p') :
    p'.analysis_type = p.analysis_type ∧ p'.filters = p.filters ∧
    p'.group_by = p.group_by ∧ p'.sort = p.sort ∧
    p'.user_intent = p.user_intent := by
  obtain ⟨ms, _, _, _, hcase⟩ := validatePlan_ok_inv h
  rcases hcase with ⟨_, rfl⟩ | ⟨viz, ms2, viz2, _, _, rfl⟩ <;>
    exact ⟨rfl, rfl, rfl, rfl, rfl⟩

theorem validatePlan_metrics_inv {p : Plan} {cols : List String} {p' : Plan}
    (h : validatePlan p cols = .ok p') :
    ∀ m ∈ p'.metrics, m.operation ∈ ALLOWED_METRICS ∧ m.column ∈ cols := by
  obtain ⟨ms, hb, hc, _, hcase⟩ := validatePlan_ok_inv h
  have hms : ∀ m ∈ ms, m.operation ∈ ALLOWED_METRICS ∧ m.column ∈ cols := by
    obtain ⟨ha, hflt⟩ := cleanMetrics_ok_inv hc
    intro m hm
    rw [hflt, List.mem_filter] at hm
    obtain ⟨hm1, hm2⟩ := hm
    rcases ha m hm1 with hinv | hok
    · exact absurd hinv (of_decide_eq_true hm2)
    · exact hok
  rcases hcase with ⟨hv, rfl⟩ | ⟨viz, ms2, viz2, hv, hvp, rfl⟩
  · exact fun m hm => hms m hm
  · obtain ⟨_, har, _, _, _⟩ := vizPhase_ok_inv hvp
    rcases autoRepair_ok_inv har with ⟨rfl, hveq, _⟩ | ⟨y0, tt, hy, hA, hmseq, hv2, hloc⟩
    · exact fun m hm => hms m hm
    · intro m hm
      have hm' : m ∈ ms ++ [(⟨tt, y0⟩ : Metric)] := by
        rw [← hmseq]
        exact hm
      rcases List.mem_append.mp hm' with hmm | hmm
      · exact hms m hmm
      · rcases List.mem_cons.mp hmm with rfl | hmm
        · refine ⟨hA, ?_⟩
          rcases hloc with hgb | ⟨hgbe, hcols⟩
          · exact checkGroupBy_sub (checkBasics_parts hb).2 tt (head?_mem hgb)
          · exact head?_mem hcols
        · cases hmm

theorem validatePlan_viz_inv {p : Plan} {cols : List String} {p' : Plan} {v : Viz}
    (h : validatePlan p cols = .ok p') (hv : p'.visualization = some v) :
    checkVizType v.type = .ok () ∧
    checkTypeRules p.analysis_type v.type v.x v.y = .ok () ∧
    checkAxes v.x v.y cols = .ok () ∧
    checkTopN v.top_n = .ok () ∧
    normNull v.x = v.x ∧ normNull v.color = v.color ∧
    normNullTop v.top_n = v.top_n := by
  obtain ⟨ms, hb, hc, hcond, hcase⟩ := validatePlan_ok_inv h
  rcases hcase with ⟨hnone, rfl⟩ | ⟨viz, ms2, viz2, hsome, hvp, rfl⟩
  · simp only at hv
    rw [hnone] at hv
    cases hv
  · simp only at hv
    obtain rfl := Option.some.inj hv
    obtain ⟨h1, h2, h3, h4, h5⟩ := vizPhase_ok_inv hvp
    have hcomp : normNull viz2.x = viz2.x ∧ normNull viz2.color = viz2.color ∧
        normNullTop viz2.top_n = viz2.top_n ∧ checkVizType viz2.type = .ok () := by
      rcases autoRepair_ok_inv h2 with ⟨hms2, hvz, hno⟩ | ⟨y0, tt, hy, hA, hms2, hvz, hloc⟩
      · subst hvz
        refine ⟨?_, ?_, ?_, h1⟩
        · exact normNull_normNull viz.x
        · exact normNull_normNull viz.color
        · exact normNullTop_normNullTop viz.top_n
      · subst hvz
        refine ⟨?_, ?_, ?_, h1⟩
        · exact normNull_normNull viz.x
        · exact normNull_normNull viz.color
        · exact normNullTop_normNullTop viz.top_n
    exact ⟨hcomp.2.2.2, h3, h4, h5, hcomp.1, hcomp.2.1, hcomp.2.2.1⟩

/-! ## Claim theorems -/

/-- C1 counterexample: `validate_plan` accepts a plan whose normalized
metrics contain a metric whose column ("region") is a group-by column — the
y-axis auto-repair itself appends such a metric — so the claimed invariant
does not hold on the normalized plan. -/
theorem c1_counterexample :
    validatePlan c1Plan ["region"] = .ok c1Norm ∧
    (⟨"region", "mean"⟩ : Metric) ∈ c1Norm.metrics ∧
    "region" ∈ c1Norm.group_by := by
  decide

/-- C1 (amended): the no-self-aggregation invariant is not enforced by
`validate_plan`; it holds in `execute_plan`'s aggregation-map construction:
no entry of the aggregation map has a column that is a group-by key, so a
group-by column is never aggregated. -/
theorem c1_agg_map_excludes_group_keys :
    ∀ (ms : List Metric) (gb : List String) (c op : String),
      (c, op) ∈ buildAggMap ms gb → c ∉ gb := by
  intro ms gb c op hmem
  exact buildAggMap_foldl_inv ms []
    (fun pr hpr => absurd hpr (List.not_mem_nil pr)) (c, op) hmem

/-- C1 witness: the theorem applied at a concrete aggregation map. -/
theorem c1_witness : ("pop" : String) ∉ ["region"] :=
  c1_agg_map_excludes_group_keys [⟨"pop", "sum"⟩] ["region"] "pop" "sum"
    (by decide)

/-- C2 counterexample: a distribution plan is accepted by `validate_plan`
with a non-empty normalized metrics list, because the y-axis auto-repair
appends a metric after the `AnalysisTypeMetricConflict` check has passed. -/
theorem c2_counterexample :
    validatePlan c2Plan ["region"] = .ok c2Norm ∧
    c2Norm.analysis_type = "distribution" ∧ c2Norm.metrics ≠ [] := by
  decide

/-- C2 (amended): for accepted distribution/correlation plans the metrics
list is empty at the conflict check (just after cleaning); the final
normalized metrics are either empty or exactly the single metric appended by
the y-axis auto-repair (whose operation is a statistical-metric name). -/
theorem c2_amended :
    ∀ (p : Plan) (cols : List String) (p' : Plan),
      validatePlan p cols = .ok p' →
      (p'.analysis_type = "distribution" ∨ p'.analysis_type = "correlation") →
      cleanMetrics p.metrics cols = .ok [] ∧
      (p'.metrics = [] ∨
        ∃ t y0, y0 ∈ ALLOWED_METRICS ∧ p'.metrics = [⟨t, y0⟩]) := by
  intro p cols p' h hty
  obtain ⟨ms, hb, hc, hcond, hcase⟩ := validatePlan_ok_inv h
  rw [(validatePlan_fields h).1] at hty
  have hms : ms = [] := by
    by_contra hne
    exact hcond ⟨hty, hne⟩
  subst hms
  refine ⟨hc, ?_⟩
  rcases hcase with ⟨hv, rfl⟩ | ⟨viz, ms2, viz2, hv, hvp, rfl⟩
  · exact Or.inl rfl
  · obtain ⟨_, har, _, _, _⟩ := vizPhase_ok_inv hvp
    rcases autoRepair_ok_inv har with ⟨hms2, _, _⟩ | ⟨y0, tt, hy, hA, hms2, _, _⟩
    · left
      show ms2 = []
      rw [hms2]
    · right
      refine ⟨tt, y0, hA, ?_⟩
      show ms2 = _
      rw [hms2]
      rfl

/-- C2 witness: the amended theorem applied at the concrete distribution
plan of the counterexample. -/
theorem c2_witness :
    cleanMetrics c2Plan.metrics ["region"] = .ok [] ∧
    (c2Norm.metrics = [] ∨
      ∃ t y0, y0 ∈ ALLOWED_METRICS ∧ c2Norm.metrics = [⟨t, y0⟩]) :=
  c2_amended c2Plan ["region"] c2Norm (by decide) (Or.inl rfl)

/-- C6: metric cleaning — (1) a plan accepted by `validate_plan` never keeps
a metric whose operation is a chart-type name; (2) a metric whose operation
is a chart-type name is silently dropped by the cleaning (no error); (3) any
other operation outside the statistical enum makes the cleaning fail with
the invalid-metric-operation error. -/
theorem c6_metric_cleaning :
    (∀ (p : Plan) (cols : List String) (p' : Plan),
      validatePlan p cols = .ok p' →
      ∀ m ∈ p'.metrics, m.operation ∉ INVALID_METRIC_OPERATIONS) ∧
    (∀ (m : Metric) (ms : List Metric) (cols : List String),
      m.operation ∈ INVALID_METRIC_OPERATIONS →
      cleanMetrics (m :: ms) cols = cleanMetrics ms cols) ∧
    (∀ (m : Metric) (ms : List Metric) (cols : List String),
      m.operation ∉ INVALID_METRIC_OPERATIONS →
      m.operation ∉ ALLOWED_METRICS →
      cleanMetrics (m :: ms) cols = .error ("Invalid metric operation " ++
        m.operation ++ ". Only statistical operations are allowed.")) := by
  refine ⟨?_, ?_, ?_⟩
  · intro p cols p' h m hm
    exact mem_allowed_not_invalid (validatePlan_metrics_inv h m hm).1
  · intro m ms cols hm
    simp only [cleanMetrics]
    rw [if_pos hm]
  · intro m ms cols h1 h2
    simp only [cleanMetrics]
    rw [if_neg h1, if_pos h2]

/-- C6 witness: a `bar` metric is dropped without error. -/
theorem c6_witness :
    cleanMetrics [⟨"a", "bar"⟩] ["a"] = cleanMetrics [] ["a"] :=
  c6_metric_cleaning.2.1 ⟨"a", "bar"⟩ [] ["a"] (by decide)

/-- C3 counterexample: re-validating an already-normalized plan is not
always the identity — when the table has a column literally named `mean`,
the y-axis auto-repair fires again on the second run and appends the same
metric a second time. -/
theorem c3_counterexample :
    validatePlan c3Plan ["mean"] = .ok c3Norm ∧
    validatePlan c3Norm ["mean"] = .ok c3Norm2 ∧ c3Norm2 ≠ c3Norm := by
  decide

/-- C3 (amended): `validate_plan` is idempotent for every accepted plan
whose normalized form has a y-axis that is neither a statistical-metric name
nor a literal null string, and whose metrics are empty whenever
`analysis_type` is distribution/correlation (both restrictions are forced by
the auto-repair re-firing and by the conflict check re-checking the repaired
metrics): re-validating such a normalized plan succeeds and returns it
unchanged. -/
theorem c3_amended :
    ∀ (p : Plan) (cols : List String) (p' : Plan),
      validatePlan p cols = .ok p' →
      (∀ v, p'.visualization = some v → ∀ s, v.y = some s →
        s ∉ ALLOWED_METRICS ∧ s ≠ "null" ∧ s ≠ "NULL") →
      ((p'.analysis_type = "distribution" ∨ p'.analysis_type = "correlation") →
        p'.metrics = []) →
      validatePlan p' cols = .ok p' := by
  intro p cols p' h hy hdc
  have hfields := validatePlan_fields h
  have hminv := validatePlan_metrics_inv h
  obtain ⟨msx, hb, hc, hcond, hcase⟩ := validatePlan_ok_inv h
  obtain ⟨aty, fls, gbv, msv, sov, vzv, uiv⟩ := p'
  dsimp only at hfields hminv hy hdc
  obtain ⟨hat, hfl, hgb, hso, hui⟩ := hfields
  subst hat
  subst hfl
  subst hgb
  have hcond' : ¬ ((p.analysis_type = "distribution" ∨
      p.analysis_type = "correlation") ∧ msv ≠ []) := by
    rintro ⟨h1, h2⟩
    exact h2 (hdc h1)
  unfold validatePlan
  dsimp only
  rw [hb]
  dsimp only
  rw [cleanMetrics_self hminv]
  dsimp only
  rw [if_neg hcond']
  rcases vzv with _ | v
  · rfl
  · dsimp only
    have hvi := validatePlan_viz_inv h (v := v) rfl
    have hys : ∀ s, v.y = some s →
        s ∉ ALLOWED_METRICS ∧ s ≠ "null" ∧ s ≠ "NULL" := hy v rfl
    have hny : normNull v.y = v.y :=
      normNull_eq_self (fun s hs => ⟨(hys s hs).2.1, (hys s hs).2.2⟩)
    have hnv : normViz v = v := by
      unfold normViz
      rw [hvi.2.2.2.2.1, hny, hvi.2.2.2.2.2.1, hvi.2.2.2.2.2.2]
    rw [hnv]
    have har : autoRepair p.group_by msv v cols = .ok (msv, v) := by
      rcases hyv : v.y with _ | s
      · simp only [autoRepair, hyv]
      · simp only [autoRepair, hyv]
        rw [if_neg (hys s hyv).1]
    have hvp : vizPhase p.analysis_type p.group_by msv v cols = .ok (msv, v) := by
      unfold vizPhase
      rw [hvi.1]
      dsimp only
      rw [har]
      dsimp only
      rw [hvi.2.1]
      dsimp only
      rw [hvi.2.2.1]
      dsimp only
      rw [hvi.2.2.2.1]
    rw [hvp]

/-- C3 witness: the amended theorem applied at a concrete already-normalized
plan (no visualization, no metrics). -/
theorem c3_witness : validatePlan c3wPlan [] = .ok c3wPlan :=
  c3_amended c3wPlan [] c3wPlan (by decide) (fun _ hv => nomatch hv)
    (fun _ => rfl)

/-- C4 counterexample: when `visualization.y` is unset and no metric column
is present in the result columns, `execute_plan` does not fail — it returns
the result with no figure (the `if y and ...` guard never fires on an unset
y). -/
theorem c4_counterexample :
    executePlan c4Df c4Plan = .ok (c4Df, none, c4Df) := by
  decide

/-- C4 (amended): with a truthy chart type, an unset y is resolved to the
first metric column present in the result columns; if none resolves, y stays
unset and the visualization step succeeds without error (producing a figure
only for a histogram with truthy x); the configuration error naming the
attempted value and the available columns is raised exactly when the
resolved y is truthy and absent from the result columns. -/
theorem c4_amended :
    ∀ (res : Table) (v : Viz) (ms : List Metric),
      truthyS v.type = true →
      ((v.y = none → resolveY v.y ms res = firstMetricCol ms res) ∧
       (v.y = none → firstMetricCol ms res = none →
         vizStage res (some v) ms = .ok (buildFig v.type v.x none v.color)) ∧
       (∀ ys, resolveY v.y ms res = some ys → ys ≠ "" → ys ∉ colNames res →
         vizStage res (some v) ms = .error (yAxisErr ys (colNames res)))) := by
  intro res v ms ht
  refine ⟨?_, ?_, ?_⟩
  · intro hy
    rw [hy]
    rcases ms with _ | ⟨m0, ms0⟩ <;> rfl
  · intro hy hfm
    have hres : resolveY v.y ms res = none := by
      rw [hy]
      rcases ms with _ | ⟨m0, ms0⟩
      · rfl
      · exact hfm
    unfold vizStage
    dsimp only
    rw [if_pos ht, hres]
  · intro ys hres hne hnc
    unfold vizStage
    dsimp only
    rw [if_pos ht, hres]
    dsimp only
    rw [if_pos ⟨hne, hnc⟩]

/-- C4 witness: the amended theorem applied at a concrete result table, viz
spec with unset y and a metric whose column is absent from the result. -/
theorem c4_witness :
    ((c4Viz.y = none → resolveY c4Viz.y c4Ms c4Df = firstMetricCol c4Ms c4Df) ∧
     (c4Viz.y = none → firstMetricCol c4Ms c4Df = none →
       vizStage c4Df (some c4Viz) c4Ms =
         .ok (buildFig c4Viz.type c4Viz.x none c4Viz.color)) ∧
     (∀ ys, resolveY c4Viz.y c4Ms c4Df = some ys → ys ≠ "" →
       ys ∉ colNames c4Df →
       vizStage c4Df (some c4Viz) c4Ms = .error (yAxisErr ys (colNames c4Df)))) :=
  c4_amended c4Df c4Viz c4Ms rfl

/-- C5 counterexample: when the y-axis configuration error fires,
`execute_plan` raises — the caller receives only the error, not the
already-computed result table (the Python `raise` precedes the `return`). -/
theorem c5_counterexample :
    executePlan c5cDf c5cPlan = .error "Invalid y-axis zz. Available columns: [q]" := by
  decide

/-- C5 (amended): the configuration error aborts `execute_plan` after
filtering, aggregation, sorting and truncation have all succeeded: whenever
the visualization step's resolved y is truthy and absent from the computed
result table's columns, `execute_plan` returns the error (and therefore does
not deliver the computed result table to the caller). -/
theorem c5_amended :
    ∀ (df : Table) (p : Plan) (rt : Table) (v : Viz) (ys : String),
      resultThroughTopN df p = .ok rt →
      p.visualization = some v →
      truthyS v.type = true →
      resolveY v.y p.metrics rt = some ys →
      ys ≠ "" → ys ∉ colNames rt →
      executePlan df p = .error (yAxisErr ys (colNames rt)) := by
  intro df p rt v ys hrt hv ht hres hne hnc
  unfold resultThroughTopN at hrt
  rcases hrs : resultThroughSort df p with e | rt0
  · rw [hrs] at hrt
    exact absurd hrt (by simp)
  · rw [hrs] at hrt
    dsimp only at hrt
    unfold resultThroughSort at hrs
    rcases hf : processFilters df p.filters with e | fl
    · rw [hf] at hrs
      exact absurd hrs (by simp)
    · rw [hf] at hrs
      dsimp only at hrs
      rcases ha : aggStage fl p.metrics p.group_by with e | r
      · rw [ha] at hrs
        exact absurd hrs (by simp)
      · rw [ha] at hrs
        dsimp only at hrs
        simp only [Except.ok.injEq] at hrs
        unfold executePlan
        rw [hf]
        dsimp only
        rw [ha]
        dsimp only
        rw [hrs, hrt]
        dsimp only
        have hvs : vizStage rt p.visualization p.metrics =
            .error (yAxisErr ys (colNames rt)) := by
          rw [hv]
          unfold vizStage
          dsimp only
          rw [if_pos ht, hres]
          dsimp only
          rw [if_pos ⟨hne, hnc⟩]
        rw [hvs]

/-- C5 witness: the amended theorem applied at a concrete table and plan
whose y-axis is absent from the result columns. -/
theorem c5_witness :
    executePlan c5Df c5Plan = .error (yAxisErr "b" (colNames c5Df)) :=
  c5_amended c5Df c5Plan c5Df c5Viz "b" (by decide) rfl rfl rfl
    (by decide) (by decide)

/-- C7: for every validated plan carrying `visualization.top_n = n` (an
int, hence positive by validation), the result table after the top-n step is
the result after sorting truncated to its first n rows exactly when
`user_intent.focus` is not `"both"`, and is left untruncated when the focus
is `"both"`, regardless of n. -/
theorem c7_truncation :
    ∀ (p : Plan) (cols : List String) (p' : Plan) (v : Viz) (n : Int)
      (df : Table),
      validatePlan p cols = .ok p' →
      p'.visualization = some v →
      v.top_n = some (.int n) →
      resultThroughTopN df p' =
        Except.map (fun rt => if focusOf p'.user_intent = some "both" then rt
          else { rt with rows := rt.rows.take n.toNat })
          (resultThroughSort df p') := by
  intro p cols p' v n df h hv htn
  have hpos : 0 < n := by
    have hck := (validatePlan_viz_inv h hv).2.2.2.1
    rw [htn] at hck
    exact checkTopN_pos hck
  unfold resultThroughTopN
  rcases hrs : resultThroughSort df p' with e | rt
  · rfl
  · dsimp only
    show topnStage rt p'.visualization p'.user_intent = _
    unfold topnStage
    rw [hv]
    simp only [topnOf]
    rw [htn]
    by_cases hfoc : focusOf p'.user_intent = some "both"
    · rw [if_neg (by rintro ⟨h1, _⟩; exact h1 hfoc)]
      show _ = Except.map _ (Except.ok rt)
      dsimp only [Except.map]
      rw [if_pos hfoc]
    · have htr : truthyTop (some (TopVal.int n)) = true := by
        simp only [truthyTop]
        simp only [Bool.not_eq_true']
        rw [beq_eq_false_iff_ne]
        omega
      rw [if_pos ⟨hfoc, htr⟩]
      dsimp only
      show Except.ok (tableHead rt n) = Except.map _ (Except.ok rt)
      dsimp only [Except.map]
      rw [if_neg hfoc]
      unfold tableHead
      rw [if_pos (le_of_lt hpos)]

/-- C7 witness: the theorem applied at a concrete validated plan with
`top_n = 2` and no focus intent. -/
theorem c7_witness :
    resultThroughTopN c7Df c7Plan =
      Except.map (fun rt => if focusOf c7Plan.user_intent = some "both" then rt
        else { rt with rows := rt.rows.take (Int.toNat 2) })
        (resultThroughSort c7Df c7Plan) :=
  c7_truncation c7Plan ["a"] c7Plan c7Viz 2 c7Df (by decide) rfl rfl

/-- C8: scalar count mode — with empty group-by and a single `count` metric
over an existing column, the result is a one-row one-column table named
`count` holding the distinct-value count when the column's dtype is object
(text/categorical), and the plain row count otherwise. -/
theorem c8_count_mode :
    ∀ (t : Table) (c : String) (i : Nat),
      colIdx t c = some i →
      aggStage t [⟨c, "count"⟩] [] =
        .ok { headers := [⟨"count", DType.numeric⟩],
              rows := [[Cell.num
                (if (t.headers.getD i ⟨"", DType.object⟩).dtype ≠ DType.object
                 then ((t.rows.length : Nat) : Rat)
                 else ((nunique (colCells t i) : Nat) : Rat))]] } := by
  intro t c i h
  show countMode t ⟨c, "count"⟩ = _
  unfold countMode
  rw [h]
  dsimp only
  by_cases hd : (t.headers.getD i ⟨"", DType.object⟩).dtype ≠ DType.object
  · rw [if_pos hd, if_pos hd]
  · rw [if_neg hd, if_neg hd]

/-- C8 witness: the theorem applied at a concrete text column (three rows,
two distinct values). -/
theorem c8_witness :
    aggStage c8Tbl [⟨"city", "count"⟩] [] =
      .ok { headers := [⟨"count", DType.numeric⟩],
            rows := [[Cell.num
              (if (c8Tbl.headers.getD 0 ⟨"", DType.object⟩).dtype ≠ DType.object
               then ((c8Tbl.rows.length : Nat) : Rat)
               else ((nunique (colCells c8Tbl 0) : Nat) : Rat))]] } :=
  c8_count_mode c8Tbl "city" 0 rfl

/-- C9 counterexample: spec Scenario B as stated crashes — the right-hand
value `"10%"` goes through the unguarded `float(...)`, which does not strip
`%`, so `execute_plan` raises instead of retaining the `15.0` row. -/
theorem c9_counterexample :
    executePlan c9Tbl c9Plan = .error "could not convert string to float: 10%" := by
  decide

/-- C9 (amended): for a relational filter whose right-hand value itself
parses as a float, the target column is coerced (strip `%`, trim, parse)
and the rows are filtered by the comparison — the column side never raises:
a column value that fails to parse becomes missing and is excluded by every
relational comparison.  (Scenario B holds with value `"10"` in place of
`"10%"`.) -/
theorem c9_amended :
    ∀ (t : Table) (f : Filter) (i : Nat) (q : Rat),
      (f.operator = ">" ∨ f.operator = "<" ∨ f.operator = ">=" ∨
        f.operator = "<=") →
      colIdx t f.column = some i →
      pyFloat (preVal f.value) = .ok q →
      (processFilters t [f] =
        .ok (filterRows (coerceColumn t i)
          (fun r => relCmp f.operator (r.getD i .na) q)) ∧
       (∀ s, floatParse (strTrim (removeChar '%' s)) = none →
         coerceCell (.str s) = .na) ∧
       relCmp f.operator Cell.na q = false) := by
  intro t f i q hop hcol hq
  refine ⟨?_, ?_, ?_⟩
  · have haf : applyFilter t f =
        .ok (filterRows (coerceColumn t i)
          (fun r => relCmp f.operator (r.getD i .na) q)) := by
      unfold applyFilter
      rw [if_pos hop, hcol]
      dsimp only
      rw [hq]
    simp only [processFilters, haf]
  · intro s hs
    simp only [coerceCell, hs]
  · rfl

/-- C9 witness: the amended theorem at the concrete discount column with the
parseable value `"10"`. -/
theorem c9_witness :
    (processFilters c9Tbl [c9GoodFilter] =
      .ok (filterRows (coerceColumn c9Tbl 0)
        (fun r => relCmp c9GoodFilter.operator (r.getD 0 .na) 10)) ∧
     (∀ s, floatParse (strTrim (removeChar '%' s)) = none →
       coerceCell (.str s) = .na) ∧
     relCmp c9GoodFilter.operator Cell.na 10 = false) :=
  c9_amended c9Tbl c9GoodFilter 0 10 (Or.inl rfl) (by decide) (by decide)

/-- C10: the never-raise leniency applies only to column values — a
relational filter whose right-hand value does not parse as a float makes
`execute_plan` raise the float-conversion error (once the preceding filters
have run and the filter's column exists), rather than degrading to a
best-effort result. -/
theorem c10_unparseable_value_raises :
    ∀ (df : Table) (p : Plan) (fs rest : List Filter) (f : Filter)
      (t' : Table) (i : Nat) (e : String),
      p.filters = fs ++ f :: rest →
      processFilters df fs = .ok t' →
      (f.operator = ">" ∨ f.operator = "<" ∨ f.operator = ">=" ∨
        f.operator = "<=") →
      colIdx t' f.column = some i →
      pyFloat (preVal f.value) = .error e →
      executePlan df p = .error e := by
  intro df p fs rest f t' i e hpf hok hop hcol he
  have haf : applyFilter t' f = .error e := by
    unfold applyFilter
    rw [if_pos hop, hcol]
    dsimp only
    rw [he]
  have hpf2 : processFilters df p.filters = .error e := by
    rw [hpf, processFilters_append]
    rw [hok]
    dsimp only
    simp only [processFilters, haf]
  unfold executePlan
  rw [hpf2]

/-- C10 witness: the theorem applied at a concrete text filter value
`"abc"`. -/
theorem c10_witness :
    executePlan c10Tbl c10Plan = .error "could not convert string to float: abc" :=
  c10_unparseable_value_raises c10Tbl c10Plan [] [] c10Filter c10Tbl 0
    "could not convert string to float: abc" rfl rfl (Or.inl rfl) rfl
    (by decide)

end DataSages
